import Mathlib

/-!
Shallow embedding of `src/gui/utils/texteditor/debugger.py` (PLaSK debugger
panel): the socket worker `PersistentSocketThread` and the controller
`DebuggerPanel`.

The worker thread's interaction with the operating system's socket is
modelled environmentally: each iteration of the run loop consumes one
`IterEnv` describing what the socket did on that iteration (outcome of
`sendall` if a send happens, and the outcome of `recv`).  `json.loads` and
`json.dumps` are Python standard-library calls, so they appear as function
parameters (`decode`, `dumps`) of the embedded operations; concrete
instantiations are supplied where a claim needs them.  Qt signal emission is
modelled as appending an `Emit` value to the worker's ordered event list,
which is exactly the single-producer ordered delivery the signal/slot
mechanism provides.
-/

namespace Debugger

/-- A Python `bytes` value: a list of byte values. -/
abbrev Bytes := List Nat

/-- A decoded JSON document, the possible results of `json.loads`. -/
inductive JsonVal where
  | null
  | bool (b : Bool)
  | num (n : Int)
  | str (s : String)
  | arr (elems : List JsonVal)
  | obj (fields : List (String × JsonVal))

/-- The signals of `PersistentSocketThread`: `vars_received(dict)`,
`connected_ok()`, `error(str)`, `closed()` (debugger.py lines 13-16).
The source has a single `error` signal; the error family is distinguished
by the message prefix built at each emit site. -/
inductive Emit where
  | connectedOk
  | varsReceived (v : JsonVal)
  | error (msg : String)
  | closed

/-- Boolean recogniser for the terminal `closed` signal. -/
def Emit.isClosed : Emit → Bool
  | .closed => true
  | _ => false

/-- Boolean recogniser for the `connected_ok` signal. -/
def Emit.isConnectedOk : Emit → Bool
  | .connectedOk => true
  | _ => false

/-- Boolean recogniser for the `error` signal (any message). -/
def Emit.isError : Emit → Bool
  | .error _ => true
  | _ => false

/-- Boolean recogniser for the `vars_received` signal. -/
def Emit.isVarsReceived : Emit → Bool
  | .varsReceived _ => true
  | _ => false

/-- Outcome of one `socket.recv(65536)` call (debugger.py line 61):
`timeout` is `socket.timeout` (caught, loop continues); `data bs` is a
normal return carrying the received bytes — a graceful peer close is
reported by `recv` as `data []` (empty bytes at end of stream); `err m`
is any other exception raised by `recv`. -/
inductive RecvResult where
  | timeout
  | data (bs : Bytes)
  | err (msg : String)

/-- What the socket does during one iteration of the run loop:
`sendResult` is the outcome of `self.socket.sendall(cmd)` when a command
is popped (`none` = success, `some m` = exception with message `m`;
ignored when the queue is empty and no send happens), and `recvResult`
is the outcome of the single `recv`. -/
structure IterEnv where
  sendResult : Option String
  recvResult : RecvResult

/-- One step of the worker's observable timeline: either the environment
drives one loop iteration, or the controller thread calls `stop()`
(debugger.py line 85: sets `self.running = False`; the flag is read only
at the top of the loop), or the controller enqueues a command
(`enqueue_command`, line 31: appends to `send_queue`). -/
inductive Step where
  | iter (e : IterEnv)
  | stop
  | enqueue (cmd : Bytes)

/-- Mutable state of the run loop, together with the accumulated observable
outputs: `events` is the ordered sequence of signals emitted so far and
`wire` the ordered sequence of byte strings successfully written to the
socket by `sendall`. -/
structure LoopState where
  running : Bool
  queue : List Bytes
  events : List Emit
  wire : List Bytes

/-- Lines 50-57 of debugger.py: if `send_queue` is non-empty, pop exactly
one command from the front and `sendall` it; a send exception emits
`error("Send error: ...")` and breaks the loop (second component `true`
means the loop breaks). -/
def sendPhase (st : LoopState) (e : IterEnv) : LoopState × Bool :=
  match st.queue with
  | [] => (st, false)
  | c :: rest =>
    match e.sendResult with
    | none => ({ st with queue := rest, wire := st.wire ++ [c] }, false)
    | some m =>
      ({ st with queue := rest,
                 events := st.events ++ [Emit.error ("Send error: " ++ m)] }, true)

/-- Lines 59-73 of debugger.py: one bounded `recv`.  Non-empty data is
passed to `json.loads` (the `decode` parameter): success emits
`vars_received`, failure emits `error("JSON decode error: ...")` and the
loop continues.  Empty data fails the `if data:` test and nothing happens.
`socket.timeout` is passed over.  Any other exception emits
`error("Socket error: ...")` and breaks the loop. -/
def recvPhase (decode : Bytes → Except String JsonVal) (st : LoopState)
    (e : IterEnv) : LoopState × Bool :=
  match e.recvResult with
  | .timeout => (st, false)
  | .err m =>
    ({ st with events := st.events ++ [Emit.error ("Socket error: " ++ m)] }, true)
  | .data bs =>
    if bs.isEmpty then (st, false)
    else
      match decode bs with
      | .ok v => ({ st with events := st.events ++ [Emit.varsReceived v] }, false)
      | .error m =>
        ({ st with events := st.events ++ [Emit.error ("JSON decode error: " ++ m)] }, false)

/-- The outcome of running the worker against a finite script of steps:
`finished` means the `run` method returned (its final event list and wire
writes are recorded); `pending` means the loop is still alive waiting for
more environment steps, with the state reached so far. -/
inductive RunOutcome where
  | finished (events : List Emit) (wire : List Bytes)
  | pending (st : LoopState)

/-- The `while self.running:` loop of `PersistentSocketThread.run`
(debugger.py lines 49-83), driven by a finite script.  The `running` flag
is checked at the top of every iteration; when it is false the loop exits
and teardown emits exactly one terminal `closed` (lines 77-83).  A break
from the send or receive phase reaches the same teardown. -/
def loopRun (decode : Bytes → Except String JsonVal) :
    LoopState → List Step → RunOutcome
  | st, [] =>
    if st.running then .pending st
    else .finished (st.events ++ [Emit.closed]) st.wire
  | st, Step.stop :: rest =>
    if st.running then loopRun decode { st with running := false } rest
    else .finished (st.events ++ [Emit.closed]) st.wire
  | st, Step.enqueue c :: rest =>
    if st.running then loopRun decode { st with queue := st.queue ++ [c] } rest
    else .finished (st.events ++ [Emit.closed]) st.wire
  | st, Step.iter e :: rest =>
    if st.running then
      match sendPhase st e with
      | (st1, true) => .finished (st1.events ++ [Emit.closed]) st1.wire
      | (st1, false) =>
        match recvPhase decode st1 e with
        | (st2, true) => .finished (st2.events ++ [Emit.closed]) st2.wire
        | (st2, false) => loopRun decode st2 rest
    else .finished (st.events ++ [Emit.closed]) st.wire

/-- Outcome of `socket.create_connection((host, port), timeout=3)` in
`connect_socket` (debugger.py line 36): success, or an exception with
message `m`. -/
inductive ConnectResult where
  | ok
  | fail (msg : String)

/-- `PersistentSocketThread.run` (debugger.py lines 44-83): run
`connect_socket` first.  On failure `connected` stays false, an
`error("Connection failed: ...")` is emitted and `run` returns at line 47
without entering the loop and without `closed`.  On success `connected_ok`
is emitted and the run loop starts.  `running0` is the value of
`self.running` when the loop is first entered (`True` from `__init__`
unless `stop()` was called before the thread started). -/
def runThread (decode : Bytes → Except String JsonVal) (r : ConnectResult)
    (initQueue : List Bytes) (running0 : Bool) (script : List Step) : RunOutcome :=
  match r with
  | .fail m => .finished [Emit.error ("Connection failed: " ++ m)] []
  | .ok =>
    loopRun decode
      { running := running0, queue := initQueue
        events := [Emit.connectedOk], wire := [] } script

/-! ## Controller: `DebuggerPanel` (debugger.py lines 89-203)

The panel's observable state is the text of the two input fields, the
list items of `panel_widget`, the enabled flags of the three action
buttons, and the `socket_thread` reference.  The worker object, as the
controller sees it, is its constructor state plus the attributes the
controller reads or writes (`connected`, `running`, `send_queue`). -/

/-- The worker object as held by the controller: constructor arguments
(lines 20-28) plus the attributes touched across the thread boundary. -/
structure Worker where
  host : String
  port : Int
  running : Bool
  connected : Bool
  send_queue : List Bytes
deriving DecidableEq

/-- `PersistentSocketThread.__init__(host, port)` (lines 20-29):
`running = True`, `connected = False`, empty `send_queue`. -/
def Worker.mk0 (host : String) (port : Int) : Worker :=
  { host := host, port := port, running := true, connected := false,
    send_queue := [] }

/-- `PersistentSocketThread.stop` (lines 85-86): set `running` to
`False`.  It mutates one flag and emits nothing. -/
def Worker.stopReq (w : Worker) : Worker := { w with running := false }

/-- `PersistentSocketThread.enqueue_command` (lines 31-32): append the
command to the back of `send_queue`. -/
def Worker.enqueue_command (w : Worker) (cmd : Bytes) : Worker :=
  { w with send_queue := w.send_queue ++ [cmd] }

/-- State of `DebuggerPanel`: input texts, `panel_widget` items, button
enabled flags, and the optional `socket_thread` reference (line 144). -/
structure PanelState where
  host_input : String
  port_input : String
  items : List String
  next_break_enabled : Bool
  next_line_enabled : Bool
  stop_enabled : Bool
  socket_thread : Option Worker
deriving DecidableEq

/-- Modelled from the Python standard library: `text.strip()` as called at
debugger.py line 150 — remove leading and trailing whitespace. -/
def pyStrip (s : String) : String :=
  ⟨((s.data.dropWhile Char.isWhitespace).reverse.dropWhile
      Char.isWhitespace).reverse⟩

/-- Convert a digit list to a number, or `none` when the list is empty or
contains a non-digit.  Helper for `parsePort`. -/
def digitsToNat (cs : List Char) : Option Nat :=
  if cs.isEmpty then none
  else if cs.all Char.isDigit then
    some (cs.foldl (fun a c => a * 10 + (c.toNat - 48)) 0)
  else none

/-- Modelled from the Python standard library: `int(text)` as called at
debugger.py line 152 — an optional sign followed by decimal digits yields
an integer, anything else raises `ValueError` (here `none`). -/
def parsePort (s : String) : Option Int :=
  match s.data with
  | '-' :: rest => (digitsToNat rest).map (fun n => -(n : Int))
  | '+' :: rest => (digitsToNat rest).map (fun n => (n : Int))
  | cs => (digitsToNat cs).map (fun n => (n : Int))

/-- `DebuggerPanel.connect_debugger` (lines 149-168): read the host (with
`strip()`), parse the port — on `ValueError` append a diagnostic and
return; refuse if `socket_thread` is already set; otherwise append
"Connecting...", construct a fresh worker and store it in
`socket_thread` (the `start()` of the new thread is modelled separately
by `runThread`). -/
def connect_debugger (st : PanelState) : PanelState :=
  match parsePort st.port_input with
  | none => { st with items := st.items ++ ["Error: Port must be an integer."] }
  | some port =>
    match st.socket_thread with
    | some _ => { st with items := st.items ++ ["Already connected."] }
    | none =>
      { st with items := st.items ++ ["Connecting..."],
                socket_thread := some (Worker.mk0 (pyStrip st.host_input) port) }

/-- `DebuggerPanel.send_cmd` (lines 170-174): if a worker exists and its
`connected` flag is set, emit `send_command_signal`, whose slot is
`enqueue_command`; otherwise append "Not connected.". -/
def send_cmd (st : PanelState) (cmd : Bytes) : PanelState :=
  match st.socket_thread with
  | some w =>
    if w.connected then
      { st with socket_thread := some (w.enqueue_command cmd) }
    else { st with items := st.items ++ ["Not connected."] }
  | none => { st with items := st.items ++ ["Not connected."] }

/-- The wire command `b"STOP\n"` (debugger.py line 178). -/
def stopCmd : Bytes := [83, 84, 79, 80, 10]

/-- The wire command `b"STEP\n"` (debugger.py line 117). -/
def stepCmd : Bytes := [83, 84, 69, 80, 10]

/-- `DebuggerPanel.stop_debugger` (lines 176-179): if a worker reference
exists, `send_cmd(b"STOP\n")` and then call the worker's `stop()`;
otherwise do nothing. -/
def stop_debugger (st : PanelState) : PanelState :=
  match st.socket_thread with
  | none => st
  | some _ =>
    let st1 := send_cmd st stopCmd
    { st1 with socket_thread := st1.socket_thread.map Worker.stopReq }

/-- Slot for `connected_ok` — `DebuggerPanel.on_connected` (lines
181-186): append a message and enable the three action buttons. -/
def on_connected (st : PanelState) : PanelState :=
  { st with items := st.items ++ ["Connected to debugger."],
            next_break_enabled := true, next_line_enabled := true,
            stop_enabled := true }

/-- Slot for `vars_received` — `DebuggerPanel.update_vars` (lines
188-192): `panel_widget.clear()` then one item per mapping entry, in
order, rendered as `f"{key}:\n{pretty}"` with `pretty = json.dumps(value,
indent=2)` (the `dumps` parameter). -/
def update_vars (dumps : JsonVal → String) (st : PanelState)
    (vars_data : List (String × JsonVal)) : PanelState :=
  { st with items := vars_data.map (fun kv => kv.1 ++ ":\n" ++ dumps kv.2) }

/-- Slot for `error` — `DebuggerPanel.show_error` (lines 194-195): append
the message as a diagnostic item. -/
def show_error (st : PanelState) (msg : String) : PanelState :=
  { st with items := st.items ++ ["Error: " ++ msg] }

/-- Slot for `closed` — `DebuggerPanel.on_closed` (lines 197-203): append
a message, disable the three action buttons and release the worker
reference (`self.socket_thread = None`). -/
def on_closed (st : PanelState) : PanelState :=
  { st with items := st.items ++ ["Debugger connection closed."],
            next_break_enabled := false, next_line_enabled := false,
            stop_enabled := false, socket_thread := none }

/-! ## Concrete instances used to evaluate the embedding

`decodeSample` is a concrete stand-in for `json.loads` on three byte
strings: `[1]` is malformed input, `[2]` decodes to the object
`{"x": 1}`, `[3]` decodes to the bare number `7` (valid JSON that is not
an object).  `dumpsSample` is a concrete stand-in for
`json.dumps(value, indent=2)` sufficient for numeric values. -/

/-- Concrete `json.loads` instance for evaluating the worker. -/
def decodeSample : Bytes → Except String JsonVal
  | [1] => .error "Expecting value"
  | [2] => .ok (.obj [("x", .num 1)])
  | [3] => .ok (.num 7)
  | _ => .error "Expecting value"

/-- Concrete `json.dumps` instance for evaluating the controller. -/
def dumpsSample : JsonVal → String
  | .num n => toString n
  | .str s => s
  | _ => "..."

/-- The panel as built by `DebuggerPanel.__init__`: host text
`"127.0.0.1"`, port text `"5000"` (lines 99-100), empty list, action
buttons disabled (lines 114-122), no worker (line 144). -/
def panelInit : PanelState :=
  { host_input := "127.0.0.1", port_input := "5000", items := [],
    next_break_enabled := false, next_line_enabled := false,
    stop_enabled := false, socket_thread := none }

/-- A freshly constructed worker for host `"127.0.0.1"`, port `5000`. -/
def w0 : Worker := Worker.mk0 "127.0.0.1" 5000

/-- Panel holding a worker whose `connected` flag is set. -/
def panelConn : PanelState :=
  { panelInit with socket_thread := some { w0 with connected := true } }

/-- Panel holding a worker whose `connected` flag is still clear. -/
def panelNotConn : PanelState :=
  { panelInit with socket_thread := some w0 }

/-! ## Helper lemmas -/

/-- Once `running` is false, the next loop-top check exits and teardown
emits the single terminal `closed`, whatever the remaining script. -/
theorem loopRun_not_running (decode : Bytes → Except String JsonVal)
    (st : LoopState) (steps : List Step) (h : st.running = false) :
    loopRun decode st steps
      = RunOutcome.finished (st.events ++ [Emit.closed]) st.wire := by
  cases steps with
  | nil => simp [loopRun, h]
  | cons s rest => cases s <;> simp [loopRun, h]

/-- Draining lemma for idle iterations: `n` loop iterations in which every
`sendall` succeeds and every `recv` times out pop the first `n` queued
commands, writing them to the wire one per iteration in queue order. -/
theorem loopRun_idle_drain (decode : Bytes → Except String JsonVal)
    (n : Nat) (st : LoopState) (h : st.running = true) :
    loopRun decode st
        (List.replicate n (Step.iter ⟨none, RecvResult.timeout⟩))
      = RunOutcome.pending
          { running := true, queue := st.queue.drop n, events := st.events,
            wire := st.wire ++ st.queue.take n } := by
  induction n generalizing st with
  | zero =>
    obtain ⟨r, q, ev, w⟩ := st
    simp at h
    subst h
    simp [loopRun]
  | succ n ih =>
    obtain ⟨r, q, ev, w⟩ := st
    simp at h
    subst h
    cases q with
    | nil =>
      rw [List.replicate_succ]
      simpa [loopRun, sendPhase, recvPhase] using
        ih { running := true, queue := [], events := ev, wire := w } rfl
    | cons c cs =>
      rw [List.replicate_succ]
      have := ih { running := true, queue := cs, events := ev, wire := w ++ [c] } rfl
      simp [loopRun, sendPhase, recvPhase] at this ⊢
      rw [this]

/-! ## The claims -/

/-- Claim C1 (amended): after a successful connection, a read that fails
with a socket exception terminates the run loop, emitting
`error("Socket error: ...")` followed by the terminal `closed`; but a
peer closure that `recv` reports as empty data (a graceful close) fails
the `if data:` guard, nothing is emitted and the loop continues. -/
theorem recv_exception_socket_error_closed
    (decode : Bytes → Except String JsonVal) (m : String) (rest : List Step) :
    (runThread decode ConnectResult.ok [] true
        (Step.iter ⟨none, RecvResult.err m⟩ :: rest)
      = RunOutcome.finished
          [Emit.connectedOk, Emit.error ("Socket error: " ++ m), Emit.closed] [])
    ∧ (runThread decode ConnectResult.ok [] true
        (Step.iter ⟨none, RecvResult.data []⟩ :: rest)
      = loopRun decode
          { running := true, queue := [], events := [Emit.connectedOk],
            wire := [] } rest) := by
  constructor <;> simp [runThread, loopRun, sendPhase, recvPhase]

/-- Claim C1 counterexample: the remote peer closes its socket gracefully,
so the next `recv` returns empty bytes.  The run loop does not terminate
(the outcome is still `pending`), and neither a socket error nor `closed`
is emitted — contradicting the claim that peer closure exits the loop
with `SocketError` followed by `Closed`. -/
theorem peer_close_empty_read_keeps_looping :
    runThread decodeSample ConnectResult.ok [] true
        [Step.iter ⟨none, RecvResult.data []⟩]
      = RunOutcome.pending
          { running := true, queue := [], events := [Emit.connectedOk],
            wire := [] } := rfl

/-- Claim C3: a connect attempt that fails emits exactly one
`error("Connection failed: ...")`, never `connected_ok` and never
`closed`, and `run` returns without entering the run loop: the outcome
is the same for every script and writes nothing to the wire. -/
theorem connect_failure_single_connection_error
    (decode : Bytes → Except String JsonVal) (m : String) (q : List Bytes)
    (r0 : Bool) (script : List Step) :
    (runThread decode (ConnectResult.fail m) q r0 script
      = RunOutcome.finished [Emit.error ("Connection failed: " ++ m)] [])
    ∧ ([Emit.error ("Connection failed: " ++ m)].countP Emit.isError = 1)
    ∧ ([Emit.error ("Connection failed: " ++ m)].countP Emit.isConnectedOk = 0)
    ∧ ([Emit.error ("Connection failed: " ++ m)].countP Emit.isClosed = 0) :=
  ⟨rfl, rfl, rfl, rfl⟩

/-- Claim C6: commands enqueued before any draining are written to the
wire in exactly enqueue order — after `n` idle iterations the wire holds
precisely the first `n` queued commands, as `n` separate writes of one
command each (one write per iteration, never concatenated), and the rest
are still queued in order. -/
theorem fifo_one_command_per_iteration
    (decode : Bytes → Except String JsonVal) (cmds : List Bytes) (n : Nat) :
    runThread decode ConnectResult.ok cmds true
        (List.replicate n (Step.iter ⟨none, RecvResult.timeout⟩))
      = RunOutcome.pending
          { running := true, queue := cmds.drop n,
            events := [Emit.connectedOk], wire := cmds.take n } := by
  simpa [runThread] using
    loopRun_idle_drain decode n
      { running := true, queue := cmds, events := [Emit.connectedOk],
        wire := [] } rfl

/-- Claim C2 (amended): the controller refuses to create a second worker
while `socket_thread` is set; only the `closed` slot clears the
reference, so after a worker that terminates via loop exit a subsequent
connect creates a fresh worker, while an `error` event (the only thing a
connect-failure worker emits) leaves the reference set. -/
theorem live_worker_refused_closed_releases (st : PanelState) (w : Worker)
    (p : Int) (m : String) :
    (st.socket_thread = some w → parsePort st.port_input = some p →
       connect_debugger st = { st with items := st.items ++ ["Already connected."] })
    ∧ ((on_closed st).socket_thread = none)
    ∧ ((show_error st m).socket_thread = st.socket_thread)
    ∧ (parsePort st.port_input = some p →
       (connect_debugger (on_closed st)).socket_thread
         = some (Worker.mk0 (pyStrip st.host_input) p)) := by
  refine ⟨fun hw hp => ?_, rfl, rfl, fun hp => ?_⟩
  · simp [connect_debugger, hw, hp]
  · simp [connect_debugger, on_closed, hp]

/-- Claim C2 witness: with a live worker and port text `"5000"`, a second
`connect_debugger` only appends "Already connected."; after the `closed`
slot runs, `connect_debugger` installs a fresh worker. -/
theorem live_worker_refused_closed_releases_witness :
    (connect_debugger panelNotConn
       = { panelNotConn with items := panelNotConn.items ++ ["Already connected."] })
    ∧ ((connect_debugger (on_closed panelNotConn)).socket_thread
       = some (Worker.mk0 (pyStrip "127.0.0.1") 5000)) :=
  ⟨(live_worker_refused_closed_releases panelNotConn w0 5000 "").1 rfl rfl,
   (live_worker_refused_closed_releases panelNotConn w0 5000 "").2.2.2 rfl⟩

/-- Claim C2 counterexample: a worker that terminates via connect failure
emits only `error("Connection failed: ...")` and never `closed`, so the
controller's reference is never cleared; the subsequent
`connect_debugger` call is refused with "Already connected." and does
not create a fresh worker — the reference still holds the dead worker. -/
theorem connect_failure_leaves_worker_reference :
    (connect_debugger
        (show_error (connect_debugger panelInit) "Connection failed: refused")
      = { show_error (connect_debugger panelInit) "Connection failed: refused" with
          items := (show_error (connect_debugger panelInit)
              "Connection failed: refused").items ++ ["Already connected."] })
    ∧ ((connect_debugger
        (show_error (connect_debugger panelInit) "Connection failed: refused")).socket_thread
      = (connect_debugger panelInit).socket_thread) :=
  ⟨rfl, rfl⟩

/-- Claim C4: a read delivering non-empty bytes that fail to decode emits
exactly one `error("JSON decode error: ...")` and the loop continues; a
well-formed payload on the following iteration still emits
`vars_received` with the decoded document. -/
theorem decode_error_then_snapshot_continues
    (decode : Bytes → Except String JsonVal) (ev : List Emit) (w : List Bytes)
    (bs1 bs2 : Bytes) (m : String) (v : JsonVal) (rest : List Step)
    (h1 : bs1.isEmpty = false) (hd1 : decode bs1 = Except.error m)
    (h2 : bs2.isEmpty = false) (hd2 : decode bs2 = Except.ok v) :
    loopRun decode { running := true, queue := [], events := ev, wire := w }
        (Step.iter ⟨none, RecvResult.data bs1⟩
          :: Step.iter ⟨none, RecvResult.data bs2⟩ :: rest)
      = loopRun decode
          { running := true, queue := [],
            events := ev ++ [Emit.error ("JSON decode error: " ++ m),
                             Emit.varsReceived v],
            wire := w } rest := by
  simp [loopRun, sendPhase, recvPhase, h1, hd1, h2, hd2]

/-- Claim C4 witness: malformed bytes `[1]` then well-formed bytes `[2]`
under `decodeSample` — one decode-error event, then a snapshot event for
`{"x": 1}`, with the loop still pending. -/
theorem decode_error_then_snapshot_continues_witness :
    loopRun decodeSample
        { running := true, queue := [], events := [Emit.connectedOk], wire := [] }
        [Step.iter ⟨none, RecvResult.data [1]⟩,
         Step.iter ⟨none, RecvResult.data [2]⟩]
      = RunOutcome.pending
          { running := true, queue := [],
            events := [Emit.connectedOk,
                       Emit.error ("JSON decode error: " ++ "Expecting value"),
                       Emit.varsReceived (JsonVal.obj [("x", JsonVal.num 1)])],
            wire := [] } := by
  simpa [loopRun] using
    decode_error_then_snapshot_continues decodeSample [Emit.connectedOk] []
      [1] [2] "Expecting value" (JsonVal.obj [("x", JsonVal.num 1)]) []
      rfl rfl rfl rfl

/-- Claim C5: a `stop()` request before the next loop-top check makes the
loop exit with exactly one terminal `closed` and nothing after it (the
rest of the script is never consumed); a second `stop()` changes nothing,
and `stop()` on a worker object is idempotent and emits no event. -/
theorem stop_emits_single_terminal_closed
    (decode : Bytes → Except String JsonVal) (st : LoopState)
    (rest : List Step) (w : Worker)
    (hnc : ∀ e ∈ st.events, e.isClosed = false) :
    (loopRun decode st (Step.stop :: rest)
      = RunOutcome.finished (st.events ++ [Emit.closed]) st.wire)
    ∧ ((st.events ++ [Emit.closed]).countP Emit.isClosed = 1)
    ∧ (loopRun decode st (Step.stop :: Step.stop :: rest)
      = loopRun decode st (Step.stop :: rest))
    ∧ (Worker.stopReq (Worker.stopReq w) = Worker.stopReq w) := by
  have hstop : ∀ r : List Step, loopRun decode st (Step.stop :: r)
      = RunOutcome.finished (st.events ++ [Emit.closed]) st.wire := by
    intro r
    by_cases h : st.running
    · simp only [loopRun, h, if_true]
      exact loopRun_not_running decode _ r rfl
    · simp only [Bool.not_eq_true] at h
      exact loopRun_not_running decode _ _ h
  refine ⟨hstop rest, ?_, ?_, rfl⟩
  · have : st.events.countP Emit.isClosed = 0 :=
      List.countP_eq_zero.mpr (by simpa using hnc)
    rw [List.countP_append, this]
    rfl
  · rw [hstop (Step.stop :: rest), hstop rest]

/-- Claim C5 witness: a connected worker (only `connected_ok` emitted so
far) receives `stop()`: the loop finishes with events
`[connected_ok, closed]`, in which `closed` occurs exactly once. -/
theorem stop_emits_single_terminal_closed_witness :
    (loopRun decodeSample
        { running := true, queue := [], events := [Emit.connectedOk], wire := [] }
        [Step.stop]
      = RunOutcome.finished [Emit.connectedOk, Emit.closed] [])
    ∧ (([Emit.connectedOk] ++ [Emit.closed]).countP Emit.isClosed = 1) := by
  have h := stop_emits_single_terminal_closed decodeSample
    { running := true, queue := [], events := [Emit.connectedOk], wire := [] }
    [] w0 (by decide)
  exact ⟨by simpa using h.1, h.2.1⟩

/-- Claim C7: after `connected_ok`, a read delivering non-empty bytes that
decode successfully emits exactly one `vars_received` carrying the
decoded document, and the loop continues; and `update_vars` clears the
list and repopulates it solely from the new mapping — the resulting
items do not depend on the previously displayed ones. -/
theorem snapshot_emitted_and_display_replaced
    (decode : Bytes → Except String JsonVal) (dumps : JsonVal → String)
    (ev : List Emit) (w : List Bytes) (bs : Bytes) (v : JsonVal)
    (rest : List Step) (pst : PanelState)
    (vars_data : List (String × JsonVal))
    (hbs : bs.isEmpty = false) (hdec : decode bs = Except.ok v) :
    (loopRun decode { running := true, queue := [], events := ev, wire := w }
        (Step.iter ⟨none, RecvResult.data bs⟩ :: rest)
      = loopRun decode
          { running := true, queue := [],
            events := ev ++ [Emit.varsReceived v], wire := w } rest)
    ∧ ((update_vars dumps pst vars_data).items
      = vars_data.map (fun kv => kv.1 ++ ":\n" ++ dumps kv.2)) := by
  refine ⟨?_, rfl⟩
  simp [loopRun, sendPhase, recvPhase, hbs, hdec]

/-- Claim C7 witness: bytes `[2]` decode to `{"x": 1}` and yield exactly
one snapshot event; `update_vars` on a panel already showing old items
replaces them with the rendering of the new mapping alone. -/
theorem snapshot_emitted_and_display_replaced_witness :
    (loopRun decodeSample
        { running := true, queue := [], events := [Emit.connectedOk], wire := [] }
        [Step.iter ⟨none, RecvResult.data [2]⟩]
      = RunOutcome.pending
          { running := true, queue := [],
            events := [Emit.connectedOk,
                       Emit.varsReceived (JsonVal.obj [("x", JsonVal.num 1)])],
            wire := [] })
    ∧ ((update_vars dumpsSample
          { panelInit with items := ["old line 1", "old line 2"] }
          [("x", JsonVal.num 1)]).items = ["x:\n1"]) := by
  have h := snapshot_emitted_and_display_replaced decodeSample dumpsSample
    [Emit.connectedOk] [] [2] (JsonVal.obj [("x", JsonVal.num 1)]) []
    { panelInit with items := ["old line 1", "old line 2"] }
    [("x", JsonVal.num 1)] rfl rfl
  exact ⟨by simpa [loopRun] using h.1, by simpa using h.2⟩

/-- Claim C8: the run loop checks only that decoding succeeds; a payload
that is valid JSON but a bare number (not an object) is still emitted
through `vars_received`, with no decode-error event — the decoded
value's type is never validated. -/
theorem non_object_json_emitted_as_snapshot
    (decode : Bytes → Except String JsonVal) (ev : List Emit) (w : List Bytes)
    (bs : Bytes) (n : Int) (rest : List Step)
    (hbs : bs.isEmpty = false)
    (hdec : decode bs = Except.ok (JsonVal.num n)) :
    (loopRun decode { running := true, queue := [], events := ev, wire := w }
        (Step.iter ⟨none, RecvResult.data bs⟩ :: rest)
      = loopRun decode
          { running := true, queue := [],
            events := ev ++ [Emit.varsReceived (JsonVal.num n)], wire := w } rest)
    ∧ ((Emit.varsReceived (JsonVal.num n)).isError = false) := by
  refine ⟨?_, rfl⟩
  simp [loopRun, sendPhase, recvPhase, hbs, hdec]

/-- Claim C8 witness: bytes `[3]` decode to the bare number `7` under
`decodeSample`; the worker emits it as a snapshot event and the loop is
still pending with no error emitted. -/
theorem non_object_json_emitted_as_snapshot_witness :
    loopRun decodeSample
        { running := true, queue := [], events := [Emit.connectedOk], wire := [] }
        [Step.iter ⟨none, RecvResult.data [3]⟩]
      = RunOutcome.pending
          { running := true, queue := [],
            events := [Emit.connectedOk, Emit.varsReceived (JsonVal.num 7)],
            wire := [] } := by
  simpa [loopRun] using
    (non_object_json_emitted_as_snapshot decodeSample [Emit.connectedOk] []
      [3] 7 [] rfl rfl).1

/-- Claim C9: when the port text does not parse as an integer,
`connect_debugger` appends the diagnostic and returns; in particular the
worker reference is exactly what it was before the call. -/
theorem invalid_port_leaves_controller_unchanged (st : PanelState)
    (h : parsePort st.port_input = none) :
    (connect_debugger st
      = { st with items := st.items ++ ["Error: Port must be an integer."] })
    ∧ ((connect_debugger st).socket_thread = st.socket_thread) := by
  constructor <;> simp [connect_debugger, h]

/-- Claim C9 witness: port text `"50a0"` fails to parse; the panel gains
only the diagnostic item and the worker reference stays `none`. -/
theorem invalid_port_leaves_controller_unchanged_witness :
    (connect_debugger { panelInit with port_input := "50a0" }
      = { panelInit with port_input := "50a0",
                         items := ["Error: Port must be an integer."] })
    ∧ ((connect_debugger { panelInit with port_input := "50a0" }).socket_thread
      = none) := by
  have h := invalid_port_leaves_controller_unchanged
    { panelInit with port_input := "50a0" } rfl
  exact ⟨by simpa using h.1, h.2⟩

/-- Claim C10: with no worker reference `stop_debugger` does nothing at
all; with a reference it appends `b"STOP\n"` to the worker's queue only
when the `connected` flag is set (otherwise `send_cmd` appends the
"Not connected." diagnostic instead), and in either case then clears the
worker's `running` flag via `stop()`. -/
theorem stop_debugger_enqueues_stop_then_stops (st : PanelState) (w : Worker) :
    (st.socket_thread = none → stop_debugger st = st)
    ∧ (st.socket_thread = some w → w.connected = true →
        stop_debugger st
          = { st with socket_thread := some { w with
                running := false,
                send_queue := w.send_queue ++ [stopCmd] } })
    ∧ (st.socket_thread = some w → w.connected = false →
        stop_debugger st
          = { st with items := st.items ++ ["Not connected."],
                      socket_thread := some { w with running := false } }) := by
  refine ⟨fun h => ?_, fun hw hc => ?_, fun hw hc => ?_⟩
  · simp [stop_debugger, h]
  · simp [stop_debugger, send_cmd, hw, hc, Worker.enqueue_command, Worker.stopReq]
  · simp [stop_debugger, send_cmd, hw, hc, Worker.stopReq]

/-- Claim C10 witness: the three branches at concrete panels — no worker
(nothing happens), connected worker (STOP enqueued, running cleared),
unconnected worker (diagnostic appended, running cleared). -/
theorem stop_debugger_enqueues_stop_then_stops_witness :
    (stop_debugger panelInit = panelInit)
    ∧ (stop_debugger panelConn
      = { panelConn with socket_thread := some { w0 with
            connected := true, running := false, send_queue := [stopCmd] } })
    ∧ (stop_debugger panelNotConn
      = { panelNotConn with
            items := ["Not connected."],
            socket_thread := some { w0 with running := false } }) := by
  refine ⟨(stop_debugger_enqueues_stop_then_stops panelInit w0).1 rfl, ?_, ?_⟩
  · simpa using
      (stop_debugger_enqueues_stop_then_stops panelConn
        { w0 with connected := true }).2.1 rfl rfl
  · simpa using
      (stop_debugger_enqueues_stop_then_stops panelNotConn w0).2.2 rfl rfl

end Debugger
